import Mathlib

/-!
A shallow embedding of `src/src/agents/gemini/GeminiResponseHandler.ts`.

The TypeScript class `GeminiResponseHandler` drives one streamed Gemini
response into a Stream Chat message.  Its four mutable instance fields
(`message_text`, `chunk_counter`, `is_done`, `last_update_time`) form the
relay state; every observable side effect — a channel `sendEvent`, a client
`partialUpdateMessage`, a prompt sent through the model session via
`chat.sendMessageStream`, and the effect of the first `dispose` call
(unregistering the stop listener and invoking `onDispose`) — is recorded in
an output trace of `Action`s.  The external inputs of one execution — the
stream chunks together with the wall-clock reading `Date.now()` observed
when each is processed, externally delivered `ai_indicator.stop` events
handled at the loop's suspension points, stream exceptions, the list
returned by `response.functionCalls()`, and the outcome of each
`performWebSearch` call — are supplied by an `Env`.
-/

namespace GeminiResponseHandler

/-- `this.message`, as far as the handler reads it: the target message's
`id` and `cid`. -/
structure MessageInfo where
  id : String
  cid : String
  deriving DecidableEq

/-- The four mutable instance fields of the class (source lines 5 to 8). -/
structure RelayState where
  message_text : String
  chunk_counter : Nat
  is_done : Bool
  last_update_time : Int
  deriving DecidableEq

/-- A thrown JavaScript `Error`, as far as `handleError` reads it:
`error.message` (`none` models an undefined message, which the `??`
fallback replaces) and `error.toString()`. -/
structure ErrInfo where
  message : Option String
  toStr : String
  deriving DecidableEq

/-- One observable side effect of the handler. -/
inductive Action where
  | sendEvent (type : String) (ai_state : Option String) (cid : String) (message_id : String)
  | partialUpdateMessage (message_id : String) (text : String) (message : Option String)
  | modelCall (prompt : String)
  | disposeEffect
  deriving DecidableEq

/-- One suspension point of a `for await` loop over a model stream: a chunk
arrives carrying the value `Date.now()` returns when it is processed, or an
`ai_indicator.stop` event is handled while the loop awaits, or the stream
throws. -/
inductive StreamItem where
  | chunk (text : String) (now : Int)
  | stop (message_id : String)
  | fail (e : ErrInfo)
  deriving DecidableEq

/-- One entry of `response.functionCalls()`: its `name`, its `args.query`,
and the outcome of `this.performWebSearch(args.query)` for it — `some s`
when that call returns the string `s`, `none` when it throws (the search is
an external HTTP capability; `run` observes only the returned string or the
thrown error, and its `catch` at source lines 79 to 88 discards the error
value). -/
structure FunctionCall where
  name : String
  query : String
  searchOutcome : Option String
  deriving DecidableEq

/-- The external inputs of one `run`: the first stream, the function calls
the structured response reports, and the follow-up stream. -/
structure Env where
  stream1 : List StreamItem
  functionCalls : List FunctionCall
  stream2 : List StreamItem
  deriving DecidableEq

/-- `dispose` (lines 140 to 147): the first call sets `is_done`, unregisters
the stop listener and invokes `onDispose` (both recorded as
`Action.disposeEffect`); every later call returns at the `is_done` guard. -/
def dispose (s : RelayState) : RelayState × List Action :=
  if s.is_done then (s, [])
  else ({ s with is_done := true }, [Action.disposeEffect])

/-- `handleStopGenerating` (lines 149 to 162): ignore the event when already
done or when its `message_id` is not the target's; otherwise emit the clear
event and dispose. -/
def handleStopGenerating (msg : MessageInfo) (event_message_id : String)
    (s : RelayState) : RelayState × List Action :=
  if s.is_done || event_message_id != msg.id then (s, [])
  else
    let d := dispose s
    (d.1, Action.sendEvent "ai_indicator.clear" none msg.cid msg.id :: d.2)

/-- `handleError` (lines 164 to 181): a no-op when already done; otherwise
emit the error status event, overwrite the message's `text` (and `message`)
fields, and dispose. -/
def handleError (msg : MessageInfo) (error : ErrInfo) (s : RelayState) :
    RelayState × List Action :=
  if s.is_done then (s, [])
  else
    let d := dispose s
    (d.1,
      Action.sendEvent "ai_indicator.update" (some "AI_STATE_ERROR") msg.cid msg.id ::
      Action.partialUpdateMessage msg.id (error.message.getD "Error generating the message")
        (some error.toStr) :: d.2)

/-- One `for await (const chunk of result.stream)` loop (lines 39 to 56,
repeated at lines 99 to 116): at each suspension point either a chunk
arrives — break when `is_done`; otherwise append a non-empty `chunk.text()`
to `message_text`, push a throttled partial update when `now` exceeds
`last_update_time` by more than 1000, and bump `chunk_counter` — or a stop
event is handled, or the stream throws and the error propagates.  Returns
the state, the emitted trace, and the propagated error if any. -/
def streamLoop (msg : MessageInfo) : List StreamItem → RelayState →
    RelayState × List Action × Option ErrInfo
  | [], s => (s, [], none)
  | StreamItem.fail e :: _, s => (s, [], some e)
  | StreamItem.stop eid :: rest, s =>
      let h := handleStopGenerating msg eid s
      let r := streamLoop msg rest h.1
      (r.1, h.2 ++ r.2.1, r.2.2)
  | StreamItem.chunk text now :: rest, s =>
      if s.is_done then (s, [], none)
      else if text != "" then
        let s1 : RelayState := { s with message_text := s.message_text ++ text }
        if now - s1.last_update_time > 1000 then
          let r := streamLoop msg rest
            { s1 with last_update_time := now, chunk_counter := s1.chunk_counter + 1 }
          (r.1, Action.partialUpdateMessage msg.id s1.message_text none :: r.2.1, r.2.2)
        else
          streamLoop msg rest { s1 with chunk_counter := s1.chunk_counter + 1 }
      else streamLoop msg rest s

/-- The `now` values at which the loop of `streamLoop` fires a throttled
partial update, in order: the same recursion, keeping only the times. -/
def streamLoopTimes (msg : MessageInfo) : List StreamItem → RelayState → List Int
  | [], _ => []
  | StreamItem.fail _ :: _, _ => []
  | StreamItem.stop eid :: rest, s =>
      streamLoopTimes msg rest (handleStopGenerating msg eid s).1
  | StreamItem.chunk text now :: rest, s =>
      if s.is_done then []
      else if text != "" then
        let s1 : RelayState := { s with message_text := s.message_text ++ text }
        if now - s1.last_update_time > 1000 then
          now :: streamLoopTimes msg rest
            { s1 with last_update_time := now, chunk_counter := s1.chunk_counter + 1 }
        else
          streamLoopTimes msg rest { s1 with chunk_counter := s1.chunk_counter + 1 }
      else streamLoopTimes msg rest s

/-- The JSON payload `JSON.stringify` produces at line 86 for a tool call
whose search threw. -/
def failedToolJson : String := "\x7b\"error\":\"failed to call tool\"\x7d"

/-- The tool-call loop (lines 70 to 90): only calls named `web_search`
produce a result; a throwing search is caught and `failedToolJson` is
substituted for its response. -/
def toolLoop : List FunctionCall → List (String × String)
  | [] => []
  | fc :: rest =>
      if fc.name == "web_search" then
        match fc.searchOutcome with
        | some searchResult => (fc.name, searchResult) :: toolLoop rest
        | none => (fc.name, failedToolJson) :: toolLoop rest
      else toolLoop rest

/-- Lines 94 to 96: one `Function: <name>\nResult: <response>` block per
result, joined by a blank line. -/
def functionResultsText (functionResults : List (String × String)) : String :=
  String.intercalate "\n\n"
    (functionResults.map fun r => "Function: " ++ r.1 ++ "\nResult: " ++ r.2)

/-- Lines 58 to 118: when `functionCalls` is non-empty, emit the
`AI_STATE_EXTERNAL_SOURCES` status event and run the tool loop; when that
produced any results, send them back as a follow-up prompt and consume the
follow-up stream under the same contract as the first one. -/
def toolPhase (msg : MessageInfo) (env : Env) (s : RelayState) :
    RelayState × List Action × Option ErrInfo :=
  if env.functionCalls.length > 0 then
    let functionResults := toolLoop env.functionCalls
    if functionResults.length > 0 then
      let r := streamLoop msg env.stream2 s
      (r.1,
        Action.sendEvent "ai_indicator.update" (some "AI_STATE_EXTERNAL_SOURCES")
            msg.cid msg.id ::
          Action.modelCall (functionResultsText functionResults) :: r.2.1,
        r.2.2)
    else
      (s,
       [Action.sendEvent "ai_indicator.update" (some "AI_STATE_EXTERNAL_SOURCES")
          msg.cid msg.id],
       none)
  else (s, [], none)

/-- The field initializers at lines 5 to 8. -/
def initialState : RelayState := ⟨"", 0, false, 0⟩

/-- Line 28: the composed outbound prompt. -/
def fullPrompt (userMessage instructions : String) : String :=
  instructions ++ "\n\nUser message: " ++ userMessage

/-- The first stream loop of `run`, from the initial state. -/
def stage1 (msg : MessageInfo) (env : Env) : RelayState × List Action × Option ErrInfo :=
  streamLoop msg env.stream1 initialState

/-- The body of `run`'s `try` after the opening events: the first stream
loop and then — unless it threw — the tool phase. -/
def stage2 (msg : MessageInfo) (env : Env) : RelayState × List Action × Option ErrInfo :=
  match (stage1 msg env).2.2 with
  | some e => ((stage1 msg env).1, (stage1 msg env).2.1, some e)
  | none =>
      let r := toolPhase msg env (stage1 msg env).1
      (r.1, (stage1 msg env).2.1 ++ r.2.1, r.2.2)

/-- The error `run`'s `catch` receives, if any. -/
def runErr (msg : MessageInfo) (env : Env) : Option ErrInfo :=
  (stage2 msg env).2.2

/-- `run` (lines 22 to 138): emit `AI_STATE_GENERATING`, send the composed
prompt through the model session, consume the stream, service any tool
calls, push the unconditional final flush of `message_text`, and emit the
clear event; any error thrown inside the `try` is routed to `handleError`;
the `finally` calls `dispose`. -/
def run (msg : MessageInfo) (userMessage instructions : String) (env : Env) :
    RelayState × List Action :=
  let pre : List Action :=
    [Action.sendEvent "ai_indicator.update" (some "AI_STATE_GENERATING") msg.cid msg.id,
     Action.modelCall (fullPrompt userMessage instructions)]
  let r := stage2 msg env
  match r.2.2 with
  | some e =>
      let he := handleError msg e r.1
      let d := dispose he.1
      (d.1, pre ++ r.2.1 ++ he.2 ++ d.2)
  | none =>
      let d := dispose r.1
      (d.1, pre ++ r.2.1 ++
        (Action.partialUpdateMessage msg.id r.1.message_text none ::
         Action.sendEvent "ai_indicator.clear" none msg.cid msg.id :: d.2))

/-- Is this action a transport call (`sendEvent` or `partialUpdateMessage`)? -/
def isTransport : Action → Bool
  | Action.sendEvent _ _ _ _ => true
  | Action.partialUpdateMessage _ _ _ => true
  | _ => false

/-- Is this action the effect of a first `dispose` call? -/
def isDisposeEffect : Action → Bool
  | Action.disposeEffect => true
  | _ => false

/-- Is this action a `partialUpdateMessage`? -/
def isPartialUpdate : Action → Bool
  | Action.partialUpdateMessage _ _ _ => true
  | _ => false

/-- Is this action the `AI_STATE_EXTERNAL_SOURCES` status event? -/
def isExternalSources : Action → Bool
  | Action.sendEvent _ (some st) _ _ => st == "AI_STATE_EXTERNAL_SOURCES"
  | _ => false

/-- The prompts sent through the model session, in order. -/
def modelCallsOf (tr : List Action) : List String :=
  tr.filterMap fun a =>
    match a with
    | Action.modelCall p => some p
    | _ => none

/-- How many times the disposal effect (unregister and `onDispose`) ran. -/
def disposeCount (tr : List Action) : Nat := tr.countP isDisposeEffect

/-- Does a transport call appear after the first `disposeEffect` of the
trace? -/
def transportAfterDispose : List Action → Bool
  | [] => false
  | a :: rest =>
      if isDisposeEffect a then rest.any isTransport
      else transportAfterDispose rest

/-- 1 when `is_done` is set, else 0. -/
def flagNat (s : RelayState) : Nat := if s.is_done then 1 else 0

/-- No `StreamItem.fail` among the items: the stream never throws. -/
def noFail (items : List StreamItem) : Bool :=
  items.all fun it =>
    match it with
    | StreamItem.fail _ => false
    | _ => true

/-- The tail a completed (uncaught-error-free) `run` appends after the
loops: the unconditional final flush, the clear event, and the `finally`
dispose. -/
def okTail (msg : MessageInfo) (env : Env) : List Action :=
  Action.partialUpdateMessage msg.id (stage2 msg env).1.message_text none ::
  Action.sendEvent "ai_indicator.clear" none msg.cid msg.id ::
  (dispose (stage2 msg env).1).2

/-- The whole trace of a completed (uncaught-error-free) `run`. -/
def okTrace (msg : MessageInfo) (u i : String) (env : Env) : List Action :=
  Action.sendEvent "ai_indicator.update" (some "AI_STATE_GENERATING") msg.cid msg.id ::
  Action.modelCall (fullPrompt u i) :: ((stage2 msg env).2.1 ++ okTail msg env)


theorem dispose_eq (s : RelayState) :
    (s.is_done = true ∧ dispose s = (s, [])) ∨
    (s.is_done = false ∧
     dispose s = ({ s with is_done := true }, [Action.disposeEffect])) := by
  cases h : s.is_done
  · right; exact ⟨rfl, by simp [dispose, h]⟩
  · left; exact ⟨rfl, by simp [dispose, h]⟩

theorem dispose_is_done (s : RelayState) : (dispose s).1.is_done = true := by
  rcases dispose_eq s with ⟨h1, h2⟩ | ⟨h1, h2⟩ <;> simp [h2, h1]

theorem dispose_message_text (s : RelayState) :
    (dispose s).1.message_text = s.message_text := by
  rcases dispose_eq s with ⟨h1, h2⟩ | ⟨h1, h2⟩ <;> simp [h2]

theorem dispose_last_update (s : RelayState) :
    (dispose s).1.last_update_time = s.last_update_time := by
  rcases dispose_eq s with ⟨h1, h2⟩ | ⟨h1, h2⟩ <;> simp [h2]

theorem dispose_flag (s : RelayState) :
    flagNat s + disposeCount (dispose s).2 = 1 := by
  rcases dispose_eq s with ⟨h1, h2⟩ | ⟨h1, h2⟩ <;>
    simp [h2, h1, flagNat, disposeCount, isDisposeEffect]

theorem dispose_puCount (s : RelayState) :
    List.countP isPartialUpdate (dispose s).2 = 0 := by
  rcases dispose_eq s with ⟨h1, h2⟩ | ⟨h1, h2⟩ <;> simp [h2, isPartialUpdate]

theorem dispose_extCount (s : RelayState) :
    List.countP isExternalSources (dispose s).2 = 0 := by
  rcases dispose_eq s with ⟨h1, h2⟩ | ⟨h1, h2⟩ <;> simp [h2, isExternalSources]

theorem dispose_noModel (s : RelayState) : modelCallsOf (dispose s).2 = [] := by
  rcases dispose_eq s with ⟨h1, h2⟩ | ⟨h1, h2⟩ <;> simp [h2, modelCallsOf]

theorem hsg_eq (msg : MessageInfo) (eid : String) (s : RelayState) :
    handleStopGenerating msg eid s = (s, []) ∨
    (s.is_done = false ∧ eid = msg.id ∧
     handleStopGenerating msg eid s =
       ({ s with is_done := true },
        [Action.sendEvent "ai_indicator.clear" none msg.cid msg.id,
         Action.disposeEffect])) := by
  by_cases h : (s.is_done || eid != msg.id) = true
  · left; simp [handleStopGenerating, h]
  · right
    have hd : s.is_done = false := by
      cases hh : s.is_done
      · rfl
      · exact absurd (by simp [hh]) h
    have he : eid = msg.id := by
      by_cases hh : eid = msg.id
      · exact hh
      · exact absurd (by simp [hh]) h
    refine ⟨hd, he, ?_⟩
    simp [handleStopGenerating, h, dispose, hd, he]

theorem hsg_last (msg : MessageInfo) (eid : String) (s : RelayState) :
    (handleStopGenerating msg eid s).1.last_update_time = s.last_update_time := by
  rcases hsg_eq msg eid s with h | ⟨h1, h2, h3⟩
  · simp [h]
  · simp [h3]

theorem hsg_flag (msg : MessageInfo) (eid : String) (s : RelayState) :
    flagNat s + disposeCount (handleStopGenerating msg eid s).2 =
      flagNat (handleStopGenerating msg eid s).1 := by
  rcases hsg_eq msg eid s with h | ⟨h1, h2, h3⟩
  · simp [h, disposeCount]
  · simp [h3, h1, flagNat, disposeCount, isDisposeEffect]

theorem hsg_puCount (msg : MessageInfo) (eid : String) (s : RelayState) :
    List.countP isPartialUpdate (handleStopGenerating msg eid s).2 = 0 := by
  rcases hsg_eq msg eid s with h | ⟨h1, h2, h3⟩
  · simp [h, isPartialUpdate]
  · simp [h3, isPartialUpdate]

theorem hsg_extCount (msg : MessageInfo) (eid : String) (s : RelayState) :
    List.countP isExternalSources (handleStopGenerating msg eid s).2 = 0 := by
  rcases hsg_eq msg eid s with h | ⟨h1, h2, h3⟩
  · simp [h, isExternalSources]
  · simp [h3, isExternalSources]

theorem hsg_noModel (msg : MessageInfo) (eid : String) (s : RelayState) :
    modelCallsOf (handleStopGenerating msg eid s).2 = [] := by
  rcases hsg_eq msg eid s with h | ⟨h1, h2, h3⟩
  · simp [h, modelCallsOf]
  · simp [h3, modelCallsOf]

theorem hsg_done (msg : MessageInfo) (eid : String) (s : RelayState)
    (h : s.is_done = true) : handleStopGenerating msg eid s = (s, []) := by
  simp [handleStopGenerating, h]

theorem handleError_eq (msg : MessageInfo) (e : ErrInfo) (s : RelayState) :
    (s.is_done = true ∧ handleError msg e s = (s, [])) ∨
    (s.is_done = false ∧
     handleError msg e s =
       ({ s with is_done := true },
        [Action.sendEvent "ai_indicator.update" (some "AI_STATE_ERROR") msg.cid msg.id,
         Action.partialUpdateMessage msg.id
           (e.message.getD "Error generating the message") (some e.toStr),
         Action.disposeEffect])) := by
  cases h : s.is_done
  · right; exact ⟨rfl, by simp [handleError, h, dispose]⟩
  · left; exact ⟨rfl, by simp [handleError, h]⟩

theorem handleError_flag (msg : MessageInfo) (e : ErrInfo) (s : RelayState) :
    flagNat s + disposeCount (handleError msg e s).2 =
      flagNat (handleError msg e s).1 := by
  rcases handleError_eq msg e s with ⟨h1, h2⟩ | ⟨h1, h2⟩
  · simp [h2, disposeCount]
  · simp [h2, h1, flagNat, disposeCount, isDisposeEffect]

theorem handleError_extCount (msg : MessageInfo) (e : ErrInfo) (s : RelayState) :
    List.countP isExternalSources (handleError msg e s).2 = 0 := by
  rcases handleError_eq msg e s with ⟨h1, h2⟩ | ⟨h1, h2⟩ <;>
    simp [h2, isExternalSources]

theorem handleError_noModel (msg : MessageInfo) (e : ErrInfo) (s : RelayState) :
    modelCallsOf (handleError msg e s).2 = [] := by
  rcases handleError_eq msg e s with ⟨h1, h2⟩ | ⟨h1, h2⟩ <;> simp [h2, modelCallsOf]


theorem streamLoop_done (msg : MessageInfo) (items : List StreamItem) :
    ∀ s : RelayState, s.is_done = true →
      (streamLoop msg items s).1 = s ∧ (streamLoop msg items s).2.1 = [] := by
  induction items with
  | nil => intro s h; simp [streamLoop]
  | cons it rest ih =>
    intro s h
    cases it with
    | chunk text now => simp [streamLoop, h]
    | fail e => simp [streamLoop]
    | stop eid =>
        have hs := hsg_done msg eid s h
        have hr := ih s h
        simp [streamLoop, hs, hr.1, hr.2]

theorem streamLoop_flag (msg : MessageInfo) (items : List StreamItem) :
    ∀ s : RelayState,
      flagNat s + disposeCount (streamLoop msg items s).2.1 =
        flagNat (streamLoop msg items s).1 := by
  induction items with
  | nil => intro s; simp [streamLoop, disposeCount]
  | cons it rest ih =>
    intro s
    cases it with
    | fail e => simp [streamLoop, disposeCount]
    | stop eid =>
        have h1 := hsg_flag msg eid s
        have h2 := ih (handleStopGenerating msg eid s).1
        simp only [streamLoop, disposeCount, List.countP_append] at *
        omega
    | chunk text now =>
        simp only [streamLoop]
        split
        · next hdone => simp [flagNat, hdone, disposeCount]
        · next hnotdone =>
            split
            · split
              · next hthr =>
                  have h2 := ih { s with message_text := s.message_text ++ text, last_update_time := now, chunk_counter := s.chunk_counter + 1 }
                  simpa [flagNat, disposeCount, isDisposeEffect] using h2
              · next hthr =>
                  have h2 := ih { s with message_text := s.message_text ++ text, chunk_counter := s.chunk_counter + 1 }
                  simpa [flagNat, disposeCount, isDisposeEffect] using h2
            · exact ih s

theorem streamLoop_noFail (msg : MessageInfo) (items : List StreamItem) :
    ∀ s : RelayState, noFail items = true → (streamLoop msg items s).2.2 = none := by
  induction items with
  | nil => intro s h; simp [streamLoop]
  | cons it rest ih =>
    intro s h
    have hrest : noFail rest = true := by
      simp only [noFail, List.all_cons, Bool.and_eq_true] at h
      exact h.2
    cases it with
    | fail e => simp [noFail, List.all_cons] at h
    | stop eid => simp [streamLoop, ih _ hrest]
    | chunk text now =>
        simp only [streamLoop]
        split
        · simp
        · split
          · split
            · simp [ih _ hrest]
            · exact ih _ hrest
          · exact ih _ hrest

theorem streamLoop_trace (msg : MessageInfo) (items : List StreamItem) :
    ∀ s : RelayState,
      modelCallsOf (streamLoop msg items s).2.1 = [] ∧
      List.countP isExternalSources (streamLoop msg items s).2.1 = 0 ∧
      List.countP isPartialUpdate (streamLoop msg items s).2.1 =
        (streamLoopTimes msg items s).length := by
  induction items with
  | nil => intro s; simp [streamLoop, streamLoopTimes, modelCallsOf]
  | cons it rest ih =>
    intro s
    cases it with
    | fail e => simp [streamLoop, streamLoopTimes, modelCallsOf]
    | stop eid =>
        have h2 := ih (handleStopGenerating msg eid s).1
        have hm := hsg_noModel msg eid s
        have hx := hsg_extCount msg eid s
        have hp := hsg_puCount msg eid s
        simp only [streamLoop, streamLoopTimes, modelCallsOf, List.filterMap_append,
          List.countP_append] at *
        refine ⟨?_, ?_, ?_⟩
        · simp [hm, h2.1]
        · simp [hx, h2.2.1]
        · simp [hp, h2.2.2]
    | chunk text now =>
        simp only [streamLoop, streamLoopTimes]
        split
        · simp [modelCallsOf]
        · split
          · split
            · have h2 := ih { s with message_text := s.message_text ++ text, last_update_time := now, chunk_counter := s.chunk_counter + 1 }
              refine ⟨?_, ?_, ?_⟩
              · simpa [modelCallsOf] using h2.1
              · simpa [isExternalSources] using h2.2.1
              · simpa [isPartialUpdate] using h2.2.2
            · exact ih { s with message_text := s.message_text ++ text, chunk_counter := s.chunk_counter + 1 }
          · exact ih s

theorem streamLoopTimes_chain (msg : MessageInfo) (items : List StreamItem) :
    ∀ s : RelayState,
      List.Chain (fun a b : Int => b - a > 1000) s.last_update_time
        (streamLoopTimes msg items s) := by
  induction items with
  | nil => intro s; simp [streamLoopTimes]
  | cons it rest ih =>
    intro s
    cases it with
    | fail e => simp [streamLoopTimes]
    | stop eid =>
        have hl := hsg_last msg eid s
        have h := ih (handleStopGenerating msg eid s).1
        rw [hl] at h
        simpa [streamLoopTimes] using h
    | chunk text now =>
        simp only [streamLoopTimes]
        split
        · simp
        · split
          · split
            · next hthr =>
                have h := ih { s with message_text := s.message_text ++ text, last_update_time := now, chunk_counter := s.chunk_counter + 1 }
                exact List.Chain.cons hthr h
            · exact ih { s with message_text := s.message_text ++ text, chunk_counter := s.chunk_counter + 1 }
          · exact ih s


theorem toolLoop_no_web : ∀ calls : List FunctionCall,
    (∀ fc ∈ calls, fc.name ≠ "web_search") → toolLoop calls = [] := by
  intro calls
  induction calls with
  | nil => intro h; rfl
  | cons fc rest ih =>
    intro h
    have hfc : fc.name ≠ "web_search" := h fc (by simp)
    have hb : (fc.name == "web_search") = false := by
      simpa using hfc
    have hr : toolLoop rest = [] := ih fun g hg => h g (by simp [hg])
    simp [toolLoop, hb, hr]

theorem toolPhase_no_calls (msg : MessageInfo) (env : Env) (s : RelayState)
    (h : env.functionCalls = []) : toolPhase msg env s = (s, [], none) := by
  simp [toolPhase, h]

theorem toolPhase_no_results (msg : MessageInfo) (env : Env) (s : RelayState)
    (hne : env.functionCalls ≠ []) (hres : toolLoop env.functionCalls = []) :
    toolPhase msg env s =
      (s,
       [Action.sendEvent "ai_indicator.update" (some "AI_STATE_EXTERNAL_SOURCES")
          msg.cid msg.id],
       none) := by
  have hlen : 0 < env.functionCalls.length := List.length_pos.mpr hne
  simp [toolPhase, hlen, hres]

theorem toolPhase_results (msg : MessageInfo) (env : Env) (s : RelayState)
    (hne : toolLoop env.functionCalls ≠ []) :
    toolPhase msg env s =
      ((streamLoop msg env.stream2 s).1,
       Action.sendEvent "ai_indicator.update" (some "AI_STATE_EXTERNAL_SOURCES")
           msg.cid msg.id ::
         Action.modelCall (functionResultsText (toolLoop env.functionCalls)) ::
         (streamLoop msg env.stream2 s).2.1,
       (streamLoop msg env.stream2 s).2.2) := by
  have hcalls : env.functionCalls ≠ [] := by
    intro hc
    exact hne (by simp [hc, toolLoop])
  have hlen : 0 < env.functionCalls.length := List.length_pos.mpr hcalls
  have hrlen : 0 < (toolLoop env.functionCalls).length := List.length_pos.mpr hne
  simp [toolPhase, hlen, hrlen]

theorem toolPhase_flag (msg : MessageInfo) (env : Env) (s : RelayState) :
    flagNat s + disposeCount (toolPhase msg env s).2.1 =
      flagNat (toolPhase msg env s).1 := by
  by_cases hc : env.functionCalls = []
  · simp [toolPhase_no_calls msg env s hc, disposeCount]
  · by_cases hr : toolLoop env.functionCalls = []
    · simp [toolPhase_no_results msg env s hc hr, disposeCount, isDisposeEffect]
    · have h1 := streamLoop_flag msg env.stream2 s
      simp only [toolPhase_results msg env s hr, disposeCount, List.countP_cons] at *
      simpa [isDisposeEffect] using h1

theorem stage2_ok (msg : MessageInfo) (env : Env) (h : (stage1 msg env).2.2 = none) :
    stage2 msg env =
      ((toolPhase msg env (stage1 msg env).1).1,
       (stage1 msg env).2.1 ++ (toolPhase msg env (stage1 msg env).1).2.1,
       (toolPhase msg env (stage1 msg env).1).2.2) := by
  simp [stage2, h]

theorem stage2_err (msg : MessageInfo) (env : Env) (e : ErrInfo)
    (h : (stage1 msg env).2.2 = some e) :
    stage2 msg env = ((stage1 msg env).1, (stage1 msg env).2.1, some e) := by
  simp [stage2, h]

theorem stage2_flag (msg : MessageInfo) (env : Env) :
    disposeCount (stage2 msg env).2.1 = flagNat (stage2 msg env).1 := by
  have h1 : flagNat initialState + disposeCount (stage1 msg env).2.1 =
      flagNat (stage1 msg env).1 := streamLoop_flag msg env.stream1 initialState
  have h0 : flagNat initialState = 0 := rfl
  cases he : (stage1 msg env).2.2 with
  | some e =>
      rw [stage2_err msg env e he]
      simp only [] at *
      omega
  | none =>
      rw [stage2_ok msg env he]
      have h2 := toolPhase_flag msg env (stage1 msg env).1
      simp only [disposeCount, List.countP_append] at *
      omega

theorem run_ok (msg : MessageInfo) (u i : String) (env : Env)
    (h : runErr msg env = none) :
    run msg u i env = ((dispose (stage2 msg env).1).1, okTrace msg u i env) := by
  have h2 : (stage2 msg env).2.2 = none := h
  simp only [run, h2]
  simp [okTrace, okTail]

theorem run_err (msg : MessageInfo) (u i : String) (env : Env) (e : ErrInfo)
    (h : runErr msg env = some e) :
    run msg u i env =
      ((dispose (handleError msg e (stage2 msg env).1).1).1,
       Action.sendEvent "ai_indicator.update" (some "AI_STATE_GENERATING")
           msg.cid msg.id ::
         Action.modelCall (fullPrompt u i) ::
         ((stage2 msg env).2.1 ++ (handleError msg e (stage2 msg env).1).2 ++
          (dispose (handleError msg e (stage2 msg env).1).1).2)) := by
  have h2 : (stage2 msg env).2.2 = some e := h
  simp only [run, h2]
  simp

theorem run_dispose_once (msg : MessageInfo) (u i : String) (env : Env) :
    (run msg u i env).1.is_done = true ∧ disposeCount (run msg u i env).2 = 1 := by
  have hs := stage2_flag msg env
  cases he : runErr msg env with
  | none =>
      rw [run_ok msg u i env he]
      have hd := dispose_flag (stage2 msg env).1
      refine ⟨dispose_is_done _, ?_⟩
      simp only [okTrace, okTail, disposeCount, List.countP_append,
        List.countP_cons, isDisposeEffect] at *
      simp at *
      omega
  | some e =>
      rw [run_err msg u i env e he]
      have hh := handleError_flag msg e (stage2 msg env).1
      have hd := dispose_flag (handleError msg e (stage2 msg env).1).1
      refine ⟨dispose_is_done _, ?_⟩
      simp only [disposeCount, List.countP_append, List.countP_cons,
        isDisposeEffect] at *
      simp at *
      omega


theorem extCount_generating (c m : String) :
    isExternalSources
      (Action.sendEvent "ai_indicator.update" (some "AI_STATE_GENERATING") c m) = false := by
  simp only [isExternalSources]
  decide

theorem extCount_clear (c m : String) :
    isExternalSources (Action.sendEvent "ai_indicator.clear" none c m) = false := by
  simp [isExternalSources]

theorem run_modelCalls (msg : MessageInfo) (u i : String) (env : Env) :
    modelCallsOf (run msg u i env).2 =
      fullPrompt u i :: modelCallsOf (stage2 msg env).2.1 := by
  cases he : runErr msg env with
  | none =>
      rw [run_ok msg u i env he]
      simp only [okTrace, okTail, modelCallsOf, List.filterMap_append,
        List.filterMap_cons]
      have hd := dispose_noModel (stage2 msg env).1
      simp only [modelCallsOf] at hd
      simp [hd]
  | some e =>
      rw [run_err msg u i env e he]
      have hh := handleError_noModel msg e (stage2 msg env).1
      have hd := dispose_noModel (handleError msg e (stage2 msg env).1).1
      simp only [modelCallsOf, List.filterMap_append, List.filterMap_cons] at *
      simp [hh, hd]

theorem run_extCount (msg : MessageInfo) (u i : String) (env : Env) :
    List.countP isExternalSources (run msg u i env).2 =
      List.countP isExternalSources (stage2 msg env).2.1 := by
  cases he : runErr msg env with
  | none =>
      rw [run_ok msg u i env he]
      have hd := dispose_extCount (stage2 msg env).1
      simp only [okTrace, okTail, List.countP_append, List.countP_cons]
      simp [extCount_generating, extCount_clear, isExternalSources, hd]
  | some e =>
      rw [run_err msg u i env e he]
      have hh := handleError_extCount msg e (stage2 msg env).1
      have hd := dispose_extCount (handleError msg e (stage2 msg env).1).1
      simp only [List.countP_append, List.countP_cons]
      simp [extCount_generating, isExternalSources, hh, hd]

theorem stage2_trace_no_calls (msg : MessageInfo) (env : Env)
    (h : env.functionCalls = []) :
    modelCallsOf (stage2 msg env).2.1 = [] ∧
    List.countP isExternalSources (stage2 msg env).2.1 = 0 := by
  have hs := streamLoop_trace msg env.stream1 initialState
  cases he : (stage1 msg env).2.2 with
  | some e =>
      rw [stage2_err msg env e he]
      exact ⟨hs.1, hs.2.1⟩
  | none =>
      rw [stage2_ok msg env he]
      rw [toolPhase_no_calls msg env (stage1 msg env).1 h]
      simp only [stage1, modelCallsOf, List.filterMap_append, List.countP_append]
      simp only [modelCallsOf] at hs
      simp [hs.1, hs.2.1]


theorem extCount_external (c m : String) :
    isExternalSources
      (Action.sendEvent "ai_indicator.update" (some "AI_STATE_EXTERNAL_SOURCES") c m) =
      true := by
  simp only [isExternalSources]
  decide

theorem stage2_trace_no_results (msg : MessageInfo) (env : Env)
    (hne : env.functionCalls ≠ []) (hres : toolLoop env.functionCalls = [])
    (h1 : (stage1 msg env).2.2 = none) :
    modelCallsOf (stage2 msg env).2.1 = [] ∧
    List.countP isExternalSources (stage2 msg env).2.1 = 1 ∧
    (stage2 msg env).2.2 = none := by
  have hs := streamLoop_trace msg env.stream1 initialState
  rw [stage2_ok msg env h1, toolPhase_no_results msg env (stage1 msg env).1 hne hres]
  simp only [stage1, modelCallsOf, List.filterMap_append, List.countP_append] at *
  refine ⟨?_, ?_, trivial⟩
  · simp [hs.1]
  · simp [hs.2.1, extCount_external]

theorem stage2_trace_results (msg : MessageInfo) (env : Env)
    (hne : toolLoop env.functionCalls ≠ []) (h1 : (stage1 msg env).2.2 = none) :
    modelCallsOf (stage2 msg env).2.1 =
      [functionResultsText (toolLoop env.functionCalls)] ∧
    (stage2 msg env).2.2 = (streamLoop msg env.stream2 (stage1 msg env).1).2.2 := by
  have hs := streamLoop_trace msg env.stream1 initialState
  have ht := streamLoop_trace msg env.stream2 (stage1 msg env).1
  rw [stage2_ok msg env h1, toolPhase_results msg env (stage1 msg env).1 hne]
  simp only [stage1, modelCallsOf, List.filterMap_append, List.filterMap_cons] at *
  constructor
  · simp [hs.1, ht.1]
  · trivial

theorem runErr_no_results (msg : MessageInfo) (env : Env)
    (hne : env.functionCalls ≠ []) (hres : toolLoop env.functionCalls = [])
    (h1 : (stage1 msg env).2.2 = none) : runErr msg env = none :=
  (stage2_trace_no_results msg env hne hres h1).2.2

theorem runErr_results (msg : MessageInfo) (env : Env)
    (hne : toolLoop env.functionCalls ≠ []) (h1 : (stage1 msg env).2.2 = none)
    (h2 : noFail env.stream2 = true) : runErr msg env = none := by
  have h := (stage2_trace_results msg env hne h1).2
  rw [runErr, h]
  exact streamLoop_noFail msg env.stream2 (stage1 msg env).1 h2

theorem runErr_no_calls (msg : MessageInfo) (env : Env)
    (hc : env.functionCalls = []) (h1 : (stage1 msg env).2.2 = none) :
    runErr msg env = none := by
  rw [runErr, stage2_ok msg env h1, toolPhase_no_calls msg env (stage1 msg env).1 hc]

theorem stage1_err_noFail (msg : MessageInfo) (env : Env)
    (h : noFail env.stream1 = true) : (stage1 msg env).2.2 = none :=
  streamLoop_noFail msg env.stream1 initialState h


/-- A concrete target message used by the concrete scenarios below. -/
def msgA : MessageInfo := ⟨"m1", "c1"⟩

/-- A second concrete target message. -/
def msgB : MessageInfo := ⟨"m", "c"⟩

/-- A relay state that has already terminated. -/
def doneState : RelayState := ⟨"Hello", 1, true, 5000⟩

/-- A run cancelled mid-stream: one chunk arrives, then a matching stop
event, then one more chunk the loop no longer consumes. -/
def envCancel : Env :=
  ⟨[StreamItem.chunk "Hello" 5000, StreamItem.stop "m1", StreamItem.chunk "World" 6000],
   [], []⟩

/-- A run with an empty stream and no tool calls. -/
def envEmpty : Env := ⟨[], [], []⟩

/-- Three chunks whose clock readings exercise the throttle: fire at 1500,
suppressed at 2000, fire again at 2600. -/
def envThrottle : Env :=
  ⟨[StreamItem.chunk "A" 1500, StreamItem.chunk "B" 2000, StreamItem.chunk "C" 2600],
   [], []⟩

/-- One `web_search` call whose search throws, and a follow-up stream. -/
def envSearchFail : Env :=
  ⟨[], [⟨"web_search", "q0", none⟩], [StreamItem.chunk "Ans" 2000]⟩

/-- The spec's scenario: one `web_search` call whose search returns the
JSON body with answer `bar`. -/
def envSearchOk : Env :=
  ⟨[], [⟨"web_search", "foo", some "\x7b\"answer\":\"bar\"\x7d"⟩], []⟩

/-- A non-empty tool-call list in which no call is named `web_search`. -/
def envOtherTool : Env :=
  ⟨[StreamItem.chunk "Hi" 1500], [⟨"get_time", "x", some "r"⟩], []⟩

/-- A concrete thrown error. -/
def errBoom : ErrInfo := ⟨some "boom", "Error: boom"⟩

/-- C1, refuted as stated: the claim asserts that once `is_done` has been set
by dispose no further transport call occurs, and that a mid-stream
cancellation prevents the final flush and the CLEAR emission.  In the run
below the stream delivers "Hello", then a matching stop event is handled —
it emits the clear event and disposes (the `disposeEffect`) — yet `run`
still pushes the final flush `partialUpdateMessage` and a second
`ai_indicator.clear` after that `disposeEffect`. -/
theorem C1_counterexample :
    (run msgA "u" "i" envCancel).2 =
      [Action.sendEvent "ai_indicator.update" (some "AI_STATE_GENERATING") "c1" "m1",
       Action.modelCall "i\n\nUser message: u",
       Action.partialUpdateMessage "m1" "Hello" none,
       Action.sendEvent "ai_indicator.clear" none "c1" "m1",
       Action.disposeEffect,
       Action.partialUpdateMessage "m1" "Hello" none,
       Action.sendEvent "ai_indicator.clear" none "c1" "m1"] ∧
    transportAfterDispose (run msgA "u" "i" envCancel).2 = true := by
  constructor
  · decide
  · decide

/-- C1 (amended): once `is_done` is set, the stream loops stop consuming —
the relay state is not mutated further and the loops emit nothing more —
and `handleStopGenerating`, `handleError` and `dispose` are all no-ops; but
`run` itself is not cut short: on every run whose `catch` receives no
error, the trace still ends with the unconditional final flush and the
clear event (`okTail` inside `okTrace`), even when a mid-stream
cancellation already set `is_done` and emitted its `disposeEffect` earlier
in the trace. -/
theorem C1_terminated_no_mutation (msg : MessageInfo) (items : List StreamItem)
    (s : RelayState) (e : ErrInfo) (eid u i : String) (env : Env) :
    (s.is_done = true →
      (streamLoop msg items s).1 = s ∧ (streamLoop msg items s).2.1 = [] ∧
      handleStopGenerating msg eid s = (s, []) ∧ handleError msg e s = (s, []) ∧
      dispose s = (s, [])) ∧
    (runErr msg env = none →
      (run msg u i env).2 = okTrace msg u i env) := by
  constructor
  · intro h
    refine ⟨(streamLoop_done msg items s h).1, (streamLoop_done msg items s h).2,
      hsg_done msg eid s h, ?_, ?_⟩
    · rcases handleError_eq msg e s with ⟨_, h2⟩ | ⟨h1, _⟩
      · exact h2
      · exact absurd h (by simp [h1])
    · simp [dispose, h]
  · intro h
    rw [run_ok msg u i env h]

/-- Witness for C1's amended theorem, at the cancelled run `envCancel` and
a terminated state. -/
theorem C1_witness :
    (streamLoop msgA [StreamItem.chunk "W" 9000] doneState).2.1 = [] ∧
    (run msgA "u" "i" envCancel).2 = okTrace msgA "u" "i" envCancel := by
  have h := C1_terminated_no_mutation msgA [StreamItem.chunk "W" 9000] doneState
    errBoom "m1" "u" "i" envCancel
  exact ⟨(h.1 (by decide)).2.1, h.2 (by decide)⟩

/-- C2: every run ends with `is_done` set and the disposal effect — setting
the flag, unregistering the stop listener and invoking `onDispose` —
happens exactly once, whatever the outcome (normal completion, mid-stream
cancellation, or an exception anywhere in the workflow); the first
`dispose` call performs exactly that effect and a `dispose` on an
already-terminated state is a no-op. -/
theorem C2_dispose_exactly_once (msg : MessageInfo) (u i : String) (env : Env)
    (s t : RelayState) :
    ((run msg u i env).1.is_done = true ∧
     disposeCount (run msg u i env).2 = 1) ∧
    (s.is_done = false →
      dispose s = ({ s with is_done := true }, [Action.disposeEffect])) ∧
    (t.is_done = true → dispose t = (t, [])) := by
  refine ⟨run_dispose_once msg u i env, ?_, ?_⟩
  · intro h; simp [dispose, h]
  · intro h; simp [dispose, h]

/-- Witness for C2 at the cancelled run `envCancel`, a live state and a
terminated state. -/
theorem C2_witness :
    disposeCount (run msgA "u" "i" envCancel).2 = 1 ∧
    dispose initialState = ({ initialState with is_done := true }, [Action.disposeEffect]) ∧
    dispose doneState = (doneState, []) := by
  have h := C2_dispose_exactly_once msgA "u" "i" envCancel initialState doneState
  exact ⟨h.1.2, h.2.1 (by decide), h.2.2 (by decide)⟩

/-- C3: a throttled partial update fires only when the wall clock exceeds
the stored `last_update_time` by more than 1000ms — `streamLoopTimes` lists
the firing times, and measured from the stored time each consecutive pair
is more than 1000 apart, so updates are never sent more than once per
1000ms — the loop's partial updates are exactly those throttled ones, and
on every run whose `catch` receives no error the trace ends with `okTail`:
one unconditional final flush carrying the full accumulated
`message_text`, then the clear event, then the `finally` dispose, which
performs no partial update of its own. -/
theorem C3_throttle_and_final_flush (msg : MessageInfo) (items : List StreamItem)
    (s : RelayState) (u i : String) (env : Env) :
    List.Chain (fun a b : Int => b - a > 1000) s.last_update_time
      (streamLoopTimes msg items s) ∧
    List.countP isPartialUpdate (streamLoop msg items s).2.1 =
      (streamLoopTimes msg items s).length ∧
    (runErr msg env = none →
      (run msg u i env).2 = okTrace msg u i env ∧
      (run msg u i env).1.message_text = (stage2 msg env).1.message_text ∧
      List.countP isPartialUpdate (dispose (stage2 msg env).1).2 = 0) := by
  refine ⟨streamLoopTimes_chain msg items s, (streamLoop_trace msg items s).2.2, ?_⟩
  intro h
  refine ⟨?_, ?_, dispose_puCount _⟩
  · rw [run_ok msg u i env h]
  · rw [run_ok msg u i env h]
    exact dispose_message_text _

/-- Witness for C3 at the three-chunk throttle scenario. -/
theorem C3_witness :
    List.Chain (fun a b : Int => b - a > 1000) initialState.last_update_time
      (streamLoopTimes msgA envThrottle.stream1 initialState) ∧
    List.countP isPartialUpdate (streamLoop msgA envThrottle.stream1 initialState).2.1 =
      (streamLoopTimes msgA envThrottle.stream1 initialState).length ∧
    (run msgA "u" "i" envThrottle).2 = okTrace msgA "u" "i" envThrottle := by
  have h := C3_throttle_and_final_flush msgA envThrottle.stream1 initialState
    "u" "i" envThrottle
  exact ⟨h.1, h.2.1, (h.2.2 (by decide)).1⟩

/-- C4: `handleError` on an already-terminated relay is a no-op; otherwise
it emits the `AI_STATE_ERROR` status event, overwrites the message's
`text` field with the error's human-readable message (discarding any
partially streamed text; the `??` fallback supplies a default) and the
secondary `message` field with the full `toString` representation, and
then disposes. -/
theorem C4_error_handler (msg : MessageInfo) (e : ErrInfo) (s t : RelayState) :
    (t.is_done = true → handleError msg e t = (t, [])) ∧
    (s.is_done = false →
      handleError msg e s =
        ({ s with is_done := true },
         [Action.sendEvent "ai_indicator.update" (some "AI_STATE_ERROR") msg.cid msg.id,
          Action.partialUpdateMessage msg.id
            (e.message.getD "Error generating the message") (some e.toStr),
          Action.disposeEffect])) := by
  constructor
  · intro h
    rcases handleError_eq msg e t with ⟨_, h2⟩ | ⟨h1, _⟩
    · exact h2
    · exact absurd h (by simp [h1])
  · intro h
    rcases handleError_eq msg e s with ⟨h1, _⟩ | ⟨_, h2⟩
    · exact absurd h (by simp [h1])
    · exact h2

/-- Witness for C4 at a concrete error, a live state and a terminated
state. -/
theorem C4_witness :
    handleError msgA errBoom doneState = (doneState, []) ∧
    handleError msgA errBoom initialState =
      ({ initialState with is_done := true },
       [Action.sendEvent "ai_indicator.update" (some "AI_STATE_ERROR") "c1" "m1",
        Action.partialUpdateMessage "m1" "boom" (some "Error: boom"),
        Action.disposeEffect]) := by
  have h := C4_error_handler msgA errBoom initialState doneState
  constructor
  · exact h.1 (by decide)
  · rw [h.2 (by decide)]
    decide

/-- C5: a stop event is ignored — no state change, no transport call, no
dispose — when the relay is already terminated or the event's `message_id`
differs from the relay's target; otherwise the handler emits the clear
status signal and disposes. -/
theorem C5_stop_handler (msg : MessageInfo) (s t : RelayState) (eidA eidB : String) :
    (s.is_done = true ∨ eidA ≠ msg.id → handleStopGenerating msg eidA s = (s, [])) ∧
    (t.is_done = false → eidB = msg.id →
      handleStopGenerating msg eidB t =
        ({ t with is_done := true },
         [Action.sendEvent "ai_indicator.clear" none msg.cid msg.id,
          Action.disposeEffect])) := by
  constructor
  · intro h
    have hc : (s.is_done || eidA != msg.id) = true := by
      rcases h with h | h
      · simp [h]
      · simp [h]
    simp [handleStopGenerating, hc]
  · intro h1 h2
    have hc : (t.is_done || eidB != msg.id) = false := by simp [h1, h2]
    simp [handleStopGenerating, hc, dispose, h1, h2]

/-- Witness for C5: a non-matching stop event is ignored, a matching one on
a live relay clears and disposes. -/
theorem C5_witness :
    handleStopGenerating msgA "other" initialState = (initialState, []) ∧
    handleStopGenerating msgA "m1" initialState =
      ({ initialState with is_done := true },
       [Action.sendEvent "ai_indicator.clear" none "c1" "m1",
        Action.disposeEffect]) := by
  have h := C5_stop_handler msgA initialState initialState "other" "m1"
  constructor
  · exact h.1 (Or.inr (by decide))
  · rw [h.2 (by decide) (by decide)]
    decide

/-- C6: when the search call of a `web_search` tool call throws, the
substituted tool result is the literal JSON string
`failedToolJson` (the `JSON.stringify` of the error object at line 86),
the failure is not propagated out of the tool loop, and the run continues
to completion: no error reaches the `catch`, the trace ends with the final
flush, the clear event and the `finally` dispose, and the run terminates
disposed. -/
theorem C6_tool_failure (msg : MessageInfo) (u i q : String) (env : Env)
    (rest : List FunctionCall)
    (hcalls : env.functionCalls = ⟨"web_search", q, none⟩ :: rest)
    (h1 : noFail env.stream1 = true) (h2 : noFail env.stream2 = true) :
    toolLoop env.functionCalls = ("web_search", failedToolJson) :: toolLoop rest ∧
    runErr msg env = none ∧
    (run msg u i env).2 = okTrace msg u i env ∧
    (run msg u i env).1.is_done = true := by
  have htl : toolLoop env.functionCalls =
      ("web_search", failedToolJson) :: toolLoop rest := by
    rw [hcalls]
    simp [toolLoop]
  have hne : toolLoop env.functionCalls ≠ [] := by
    rw [htl]
    simp
  have hs1 := stage1_err_noFail msg env h1
  have herr := runErr_results msg env hne hs1 h2
  refine ⟨htl, herr, ?_, (run_dispose_once msg u i env).1⟩
  rw [run_ok msg u i env herr]

/-- Witness for C6 at a concrete failing search. -/
theorem C6_witness :
    toolLoop envSearchFail.functionCalls = [("web_search", failedToolJson)] ∧
    runErr msgA envSearchFail = none ∧
    (run msgA "u" "i" envSearchFail).2 = okTrace msgA "u" "i" envSearchFail := by
  have h := C6_tool_failure msgA "u" "i" "q0" envSearchFail [] rfl (by decide) (by decide)
  refine ⟨?_, h.2.1, h.2.2.1⟩
  rw [h.1]
  rfl

/-- C7: when the structured response yields zero tool-call requests, the
`AI_STATE_EXTERNAL_SOURCES` status signal is never emitted and the only
prompt ever sent through the model session is the initial one — no
follow-up prompt. -/
theorem C7_no_tool_calls (msg : MessageInfo) (u i : String) (env : Env)
    (h : env.functionCalls = []) :
    modelCallsOf (run msg u i env).2 = [fullPrompt u i] ∧
    List.countP isExternalSources (run msg u i env).2 = 0 := by
  have hs := stage2_trace_no_calls msg env h
  rw [run_modelCalls msg u i env, run_extCount msg u i env, hs.1, hs.2]
  exact ⟨rfl, rfl⟩

/-- Witness for C7 at the throttle scenario, which has no tool calls. -/
theorem C7_witness :
    modelCallsOf (run msgA "u" "i" envThrottle).2 = [fullPrompt "u" "i"] ∧
    List.countP isExternalSources (run msgA "u" "i" envThrottle).2 = 0 :=
  C7_no_tool_calls msgA "u" "i" envThrottle rfl

/-- C8: whenever the tool loop produced results, the only prompts sent
through the model session are the initial one and one follow-up whose text
serializes the (name, response) pairs as `Function: <name>\nResult:
<response>` blocks joined by blank lines (`functionResultsText`). -/
theorem C8_follow_up_prompt (msg : MessageInfo) (u i : String) (env : Env)
    (h1 : noFail env.stream1 = true)
    (hne : toolLoop env.functionCalls ≠ []) :
    modelCallsOf (run msg u i env).2 =
      [fullPrompt u i, functionResultsText (toolLoop env.functionCalls)] := by
  have hs1 := stage1_err_noFail msg env h1
  have h := stage2_trace_results msg env hne hs1
  rw [run_modelCalls msg u i env, h.1]

/-- Witness for C8, the spec's scenario: a `web_search` call whose search
returns the answer-bar JSON; the follow-up prompt is the literal block the
spec displays. -/
theorem C8_witness :
    modelCallsOf (run msgA "u" "i" envSearchOk).2 =
      ["i\n\nUser message: u",
       "Function: web_search\nResult: \x7b\"answer\":\"bar\"\x7d"] := by
  have h := C8_follow_up_prompt msgA "u" "i" envSearchOk (by decide) (by decide)
  rw [h]
  decide

/-- C9, refuted as stated: the claim says the outbound prompt is the
instruction text prepended to the user message by simple concatenation with
no other text inserted; with instructions "a" and user message "b" the
prompt actually sent is "a\n\nUser message: b", not "ab" — the fixed
separator text is inserted between the two. -/
theorem C9_counterexample :
    modelCallsOf (run msgB "b" "a" envEmpty).2 = ["a\n\nUser message: b"] ∧
    modelCallsOf (run msgB "b" "a" envEmpty).2 ≠ ["a" ++ "b"] := by
  constructor
  · decide
  · decide

/-- C9 (amended): for every user message, instruction text and environment,
the first prompt sent through the model session is the instruction text,
then the fixed separator text two newlines and `User message: `, then the
user message. -/
theorem C9_prompt_composition (msg : MessageInfo) (userMessage instructions : String)
    (env : Env) :
    (modelCallsOf (run msg userMessage instructions env).2).head? =
      some (instructions ++ "\n\nUser message: " ++ userMessage) := by
  rw [run_modelCalls msg userMessage instructions env]
  rfl

/-- C10: a non-empty tool-call list in which no call is named `web_search`
still triggers the `AI_STATE_EXTERNAL_SOURCES` signal exactly once, but no
tool produces a result, no follow-up prompt is sent, and the run proceeds
directly to the final flush and the clear event. -/
theorem C10_no_matching_tool (msg : MessageInfo) (u i : String) (env : Env)
    (hne : env.functionCalls ≠ [])
    (hnames : ∀ fc ∈ env.functionCalls, fc.name ≠ "web_search")
    (h1 : noFail env.stream1 = true) :
    toolLoop env.functionCalls = [] ∧
    List.countP isExternalSources (run msg u i env).2 = 1 ∧
    modelCallsOf (run msg u i env).2 = [fullPrompt u i] ∧
    runErr msg env = none ∧
    (run msg u i env).2 = okTrace msg u i env := by
  have htl := toolLoop_no_web env.functionCalls hnames
  have hs1 := stage1_err_noFail msg env h1
  have hs := stage2_trace_no_results msg env hne htl hs1
  refine ⟨htl, ?_, ?_, hs.2.2, ?_⟩
  · rw [run_extCount msg u i env, hs.2.1]
  · rw [run_modelCalls msg u i env, hs.1]
  · rw [run_ok msg u i env hs.2.2]

/-- Witness for C10 at a single `get_time` tool call. -/
theorem C10_witness :
    toolLoop envOtherTool.functionCalls = [] ∧
    List.countP isExternalSources (run msgA "u" "i" envOtherTool).2 = 1 ∧
    modelCallsOf (run msgA "u" "i" envOtherTool).2 = [fullPrompt "u" "i"] := by
  have h := C10_no_matching_tool msgA "u" "i" envOtherTool (by decide)
    (by decide) (by decide)
  exact ⟨h.1, h.2.1, h.2.2.1⟩

end GeminiResponseHandler
